import Mathlib

/-!
Verification development for the `ryxu-xo-autoplay` resolver core.

The definitions below are a shallow embedding of the TypeScript sources:
`src/types.ts` (the data model), `src/providers/base.ts` (the shared provider
helpers), the two YouTube provider drafts and the Spotify and SoundCloud
providers, and the `LavalinkAutoplay` dispatcher (the draft that carries
`mapSourceName` and the per-guild `trackHistory`).  Asynchronous calls are
modelled by passing the collaborator's behaviour as an explicit function,
`Date.now()` by an explicit `now : Nat` argument, thrown exceptions by
`Except`, and JavaScript `undefined` by `Option`.
-/

/-- JavaScript truthiness of a possibly-`undefined` string: `undefined` and
`""` are falsy, every other string is truthy. -/
def jsDefined : Option String → Bool
  | some s => s != ""
  | none => false

/-- JavaScript `a || b` on possibly-`undefined` strings. -/
def jsOrStr (a b : Option String) : Option String :=
  if jsDefined a then a else b

/-- JavaScript template interpolation of a possibly-`undefined` string
(`undefined` prints as "undefined"). -/
def jsStr : Option String → String
  | some s => s
  | none => "undefined"

/-- Does `l` start with `pat`? -/
def listStartsWith (pat : List Char) : List Char → Bool
  | [] => pat = []
  | c :: cs =>
    match pat with
    | [] => true
    | p :: ps => p == c && listStartsWith ps cs

/-- Does `pat` occur as a contiguous run inside `l`? -/
def listContainsSub (pat : List Char) : List Char → Bool
  | [] => listStartsWith pat []
  | c :: rest => listStartsWith pat (c :: rest) || listContainsSub pat rest

/-- JavaScript `String.prototype.includes`: substring containment. -/
def strIncludes (s pat : String) : Bool :=
  listContainsSub pat.toList s.toList

/-- `String.prototype.toLowerCase` (character-wise lowering). -/
def strToLower (s : String) : String :=
  String.mk (s.toList.map Char.toLower)

/-- `String.prototype.startsWith`. -/
def strStartsWith (s pat : String) : Bool :=
  listStartsWith pat.toList s.toList

/-- `String.prototype.endsWith`. -/
def strEndsWith (s pat : String) : Bool :=
  listStartsWith pat.toList.reverse s.toList.reverse

/-- Remainder of a character list after the first occurrence of `pat`
(`none` when `pat` does not occur). -/
def dropAfterFirst (pat : List Char) : List Char → Option (List Char)
  | [] => if pat = [] then some [] else none
  | c :: rest =>
    if listStartsWith pat (c :: rest) then some ((c :: rest).drop pat.length)
    else dropAfterFirst pat rest

/-- Association-list lookup, the model of `Map.prototype.get`. -/
def alookup {κ β : Type} [DecidableEq κ] : List (κ × β) → κ → Option β
  | [], _ => none
  | (k, v) :: rest, key => if k = key then some v else alookup rest key

/-- Association-list update, the model of `Map.prototype.set`: overwrite in
place when the key exists (keeping insertion order), append otherwise. -/
def aset {κ β : Type} [DecidableEq κ] : List (κ × β) → κ → β → List (κ × β)
  | [], key, v => [(key, v)]
  | (k, w) :: rest, key, v =>
    if k = key then (k, v) :: rest else (k, w) :: aset rest key v

/-- Association-list removal, the model of `Map.prototype.delete`. -/
def adelete {κ β : Type} [DecidableEq κ] : List (κ × β) → κ → List (κ × β)
  | [], _ => []
  | (k, w) :: rest, key =>
    if k = key then rest else (k, w) :: adelete rest key

/-- `src/types.ts`: the closed set of canonical autoplay sources. -/
inductive AutoplaySource where
  | youtube
  | spotify
  | soundcloud
deriving DecidableEq, Repr

/-- The string tag of a canonical source, as used for `Map` keys and the
`source` field of results. -/
def AutoplaySource.key : AutoplaySource → String
  | .youtube => "youtube"
  | .spotify => "spotify"
  | .soundcloud => "soundcloud"

/-- `src/types.ts`: `LavalinkTrackInfo`.  `sourceName` is kept as a raw
string because the dispatcher's alias table accepts non-canonical tags. -/
structure LavalinkTrackInfo where
  identifier : String
  isSeekable : Bool
  author : String
  length : Nat
  isStream : Bool
  position : Nat
  title : String
  uri : String
  sourceName : String
deriving DecidableEq, Repr

/-- `src/types.ts`: `AutoplayEventType`. -/
inductive AutoplayEventType where
  | trackFound
  | trackNotFound
  | error
  | providerError
  | rateLimited
  | timeout
  | success
deriving DecidableEq, Repr

/-- An emitted event, reduced to its type and optional error message (the
fields the claims are about). -/
structure EmittedEvent where
  type : AutoplayEventType
  errorMsg : Option String := none
deriving DecidableEq, Repr

/-- Free-form diagnostic metadata, modelled as string key/value pairs. -/
abbrev Metadata := List (String × String)

/-- `src/types.ts`: `AutoplayResult`.  All optional fields model the
TypeScript `?` fields. -/
structure AutoplayResult where
  success : Bool
  url : Option String := none
  trackId : Option String := none
  source : Option String := none
  error : Option String := none
  metadata : Option Metadata := none
deriving DecidableEq, Repr

/-- `src/providers/base.ts` `BaseProvider.validateTrackInfo`: throws when
`sourceName` is falsy or both `identifier` and `uri` are falsy.  The
`!trackInfo` null check is not representable for a structure value. -/
def BaseProvider.validateTrackInfo (t : LavalinkTrackInfo) : Except String Unit :=
  if t.sourceName = "" then Except.error "Track source name is required"
  else if t.identifier = "" ∧ t.uri = "" then Except.error "Track identifier or URI is required"
  else Except.ok ()

/-- `src/providers/base.ts` `BaseProvider.createSuccessResult`: `trackId` is
attached only when truthy, `metadata` only when provided. -/
def BaseProvider.createSuccessResult (name : AutoplaySource) (url : String)
    (trackId : Option String) (metadata : Option Metadata) : AutoplayResult :=
  { success := true
    url := some url
    source := some name.key
    trackId := if jsDefined trackId then trackId else none
    metadata := metadata }

/-- `src/providers/base.ts` `BaseProvider.createErrorResult`. -/
def BaseProvider.createErrorResult (name : AutoplaySource) (error : String)
    (metadata : Option Metadata) : AutoplayResult :=
  { success := false
    error := some error
    source := some name.key
    metadata := metadata }

/-- `src/providers/base.ts` `BaseProvider.handleError`: emit `providerError`
with the causing error and return an error result. -/
def BaseProvider.handleError (name : AutoplaySource) (errMsg : String)
    (metadata : Option Metadata) : AutoplayResult × List EmittedEvent :=
  (BaseProvider.createErrorResult name errMsg metadata,
   [{ type := .providerError, errorMsg := some errMsg }])

/-- The capability check shared verbatim by both drafts of
`YouTubeProvider.canHandle` in `src/providers/youtube.ts`. -/
def YouTubeProvider.canHandle (t : LavalinkTrackInfo) : Bool :=
  t.sourceName == "youtube" && t.identifier != ""

/-- `src/providers/youtube.ts` (radio-mode draft) `createRadioUrl`. -/
def YouTubeRadioProvider.createRadioUrl (videoId : String) : String :=
  "https://www.youtube.com/watch?v=" ++ videoId ++ "&list=RD" ++ videoId

/-- `src/providers/youtube.ts` (radio-mode draft) `getNextTrack`: builds a
deterministic radio URL from the seed identifier.  This draft takes no
`excludeIds` parameter. -/
def YouTubeRadioProvider.getNextTrack (t : LavalinkTrackInfo) :
    AutoplayResult × List EmittedEvent :=
  match BaseProvider.validateTrackInfo t with
  | .error msg => BaseProvider.handleError .youtube msg none
  | .ok _ =>
    if ¬ YouTubeProvider.canHandle t then
      (BaseProvider.createErrorResult .youtube "Cannot handle this track type" none, [])
    else
      (BaseProvider.createSuccessResult .youtube
        (YouTubeRadioProvider.createRadioUrl t.identifier) (some t.identifier)
        (some [("originalVideoId", t.identifier), ("radioMode", "true")]),
       [{ type := .trackFound }])

/-- A candidate track as returned by the external resolver collaborator
(`eura.resolve`): the code coalesces a flat shape and a nested `info` shape,
so both are modelled. -/
structure EuraTrack where
  identifier : Option String := none
  uri : Option String := none
  trackIdField : Option String := none
  infoIdentifier : Option String := none
  infoUri : Option String := none
  infoTitle : Option String := none
  infoAuthor : Option String := none
  infoLength : Option Nat := none
  duration : Option Nat := none
deriving DecidableEq, Repr

/-- The External Resolver Collaborator (`global.eura`): absent, or a function
from a query to a resolution outcome (which may throw). -/
abbrev EuraResolver := Option (String → Except String (List EuraTrack))

/-- `src/providers/youtube.ts` (search draft) `createSearchQuery`. -/
def YouTubeSearchProvider.createSearchQuery (t : LavalinkTrackInfo) : String :=
  if t.author != "" && t.title != "" then t.author ++ " " ++ t.title
  else if t.title != "" then t.title
  else "music"

/-- `src/providers/youtube.ts` (search draft) `getYouTubeAutoplayTracks`:
resolve via the collaborator, swallow thrown errors into an empty list,
filter out excluded identifiers (`trackId` is the coalesced
`track.identifier || track.info?.identifier`), keep the first 5. -/
def YouTubeSearchProvider.getAutoplayTracks :
    EuraResolver → String → List String → List EuraTrack
  | none, _, _ => []
  | some resolve, searchQuery, excludeIds =>
    match resolve searchQuery with
    | .error _ => []
    | .ok tracks =>
      if tracks.length > 0 then
        (tracks.filter (fun tr =>
          jsDefined (jsOrStr tr.identifier tr.infoIdentifier) &&
          !(excludeIds.contains ((jsOrStr tr.identifier tr.infoIdentifier).getD "")))).take 5
      else []

/-- `src/providers/youtube.ts` (search draft) `getNextTrack`. -/
def YouTubeSearchProvider.getNextTrack (eura : EuraResolver)
    (t : LavalinkTrackInfo) (excludeIds : List String) :
    AutoplayResult × List EmittedEvent :=
  match BaseProvider.validateTrackInfo t with
  | .error msg => BaseProvider.handleError .youtube msg none
  | .ok _ =>
    if ¬ YouTubeProvider.canHandle t then
      (BaseProvider.createErrorResult .youtube "Cannot handle this track type" none, [])
    else
      match YouTubeSearchProvider.getAutoplayTracks eura
          (YouTubeSearchProvider.createSearchQuery t) excludeIds with
      | [] =>
        (BaseProvider.createErrorResult .youtube "No YouTube autoplay tracks found" none,
         [{ type := .trackNotFound }])
      | selectedTrack :: _ =>
        (BaseProvider.createSuccessResult .youtube
          (jsStr (jsOrStr selectedTrack.infoUri (jsOrStr selectedTrack.uri
            (some ("https://www.youtube.com/watch?v=" ++ jsStr selectedTrack.identifier)))))
          selectedTrack.identifier
          (some [("originalVideoId", t.identifier),
                 ("selectedVideoId", jsStr selectedTrack.identifier),
                 ("trackName", jsStr selectedTrack.infoTitle),
                 ("author", jsStr selectedTrack.infoAuthor)]),
         [{ type := .trackFound }])

/-- `src/providers/spotify.ts` `SpotifyProvider.canHandle`. -/
def SpotifyProvider.canHandle (t : LavalinkTrackInfo) : Bool :=
  t.sourceName == "spotify" && t.identifier != ""

/-- `src/providers/spotify.ts` `extractTrackIdFromQuery`: the regex
`/mix:track:([a-zA-Z0-9]+)/` — the alphanumeric run following the first
occurrence of `mix:track:`, when non-empty. -/
def SpotifyProvider.extractTrackIdFromQuery (query : String) : Option String :=
  match dropAfterFirst "mix:track:".toList query.toList with
  | none => none
  | some rest =>
    let run := rest.takeWhile (fun c => c.isAlpha || c.isDigit)
    if run = [] then none else some (String.mk run)

/-- `src/providers/spotify.ts` `resolveWithLavalink`: use the collaborator if
present (a thrown error is caught and becomes zero tracks); otherwise build a
synthetic single-track fallback from the seed id in the query. -/
def SpotifyProvider.resolveWithLavalink (eura : EuraResolver)
    (query : String) : List EuraTrack :=
  match eura with
  | some resolve =>
    match resolve query with
    | .error _ => []
    | .ok tracks => tracks
  | none =>
    match SpotifyProvider.extractTrackIdFromQuery query with
    | some trackId =>
      [{ identifier := some trackId
         infoIdentifier := some trackId
         infoUri := some ("https://open.spotify.com/track/" ++ trackId)
         infoTitle := some "Spotify Autoplay Track"
         infoAuthor := some "Unknown Artist"
         infoLength := some 0 }]
    | none => []

/-- `src/providers/spotify.ts` `getSpotifyAutoplayTracks` inner loop: keep
candidates whose coalesced identifier was not yet seen and is not excluded. -/
def SpotifyProvider.dedupeFilter :
    List EuraTrack → List (Option String) → List String → List EuraTrack
  | [], _, _ => []
  | tr :: rest, seen, excl =>
    let tid := jsOrStr tr.identifier tr.infoIdentifier
    if !(seen.contains tid) &&
       !(match tid with | some s => excl.contains s | none => false) then
      tr :: SpotifyProvider.dedupeFilter rest (tid :: seen) excl
    else
      SpotifyProvider.dedupeFilter rest seen excl

/-- One step of `shuffleInPlace`: swap positions `i` and `j` where
`j = Math.random() * (i+1) | 0`, modelled by `rand i % (i+1)`. -/
def SpotifyProvider.shuffleStep (rand : Nat → Nat) (arr : List EuraTrack)
    (i : Nat) : List EuraTrack :=
  let j := rand i % (i + 1)
  match arr.get? i, arr.get? j with
  | some a, some b => (arr.set i b).set j a
  | _, _ => arr

/-- The Fisher-Yates loop of `shuffleInPlace`, from index `i` down to 1. -/
def SpotifyProvider.shuffleGo (rand : Nat → Nat) :
    Nat → List EuraTrack → List EuraTrack
  | 0, arr => arr
  | i + 1, arr => SpotifyProvider.shuffleGo rand i (SpotifyProvider.shuffleStep rand arr (i + 1))

/-- `src/providers/spotify.ts` `shuffleInPlace`, with the `Math.random` draws
supplied as an explicit function. -/
def SpotifyProvider.shuffleInPlace (rand : Nat → Nat)
    (arr : List EuraTrack) : List EuraTrack :=
  SpotifyProvider.shuffleGo rand (arr.length - 1) arr

/-- `src/providers/spotify.ts` `getSpotifyAutoplayTracks`: a single
`mix:track:` query, dedupe/exclusion filtering, then shuffle and cap. -/
def SpotifyProvider.getAutoplayTracks (eura : EuraResolver) (rand : Nat → Nat)
    (maxResults : Nat) (t : LavalinkTrackInfo) (excludeIds : List String) :
    List EuraTrack :=
  let candidates := SpotifyProvider.resolveWithLavalink eura ("mix:track:" ++ t.identifier)
  let allCandidates := SpotifyProvider.dedupeFilter candidates [] excludeIds
  if allCandidates.length = 0 then []
  else (SpotifyProvider.shuffleInPlace rand allCandidates).take maxResults

/-- `src/providers/spotify.ts` `getNextTrack`. -/
def SpotifyProvider.getNextTrack (eura : EuraResolver) (rand : Nat → Nat)
    (maxResults : Nat) (t : LavalinkTrackInfo) (excludeIds : List String) :
    AutoplayResult × List EmittedEvent :=
  match BaseProvider.validateTrackInfo t with
  | .error msg => BaseProvider.handleError .spotify msg none
  | .ok _ =>
    if ¬ SpotifyProvider.canHandle t then
      (BaseProvider.createErrorResult .spotify "Cannot handle this track type" none, [])
    else
      match SpotifyProvider.getAutoplayTracks eura rand maxResults t excludeIds with
      | [] =>
        (BaseProvider.createErrorResult .spotify "No Spotify autoplay tracks found" none,
         [{ type := .trackNotFound }])
      | selectedTrack :: _ =>
        let trackId := jsOrStr selectedTrack.identifier
          (jsOrStr selectedTrack.infoIdentifier selectedTrack.trackIdField)
        let trackTitle := jsStr (jsOrStr selectedTrack.infoTitle (some "Unknown Track"))
        let trackAuthor := jsStr (jsOrStr selectedTrack.infoAuthor (some "Unknown Artist"))
        let trackUri := jsStr (jsOrStr selectedTrack.infoUri (jsOrStr selectedTrack.uri
          (some ("https://open.spotify.com/track/" ++ jsStr trackId))))
        let trackUrl := if strStartsWith trackUri "http" then trackUri
          else "https://open.spotify.com/track/" ++ jsStr trackId
        (BaseProvider.createSuccessResult .spotify trackUrl trackId
          (some [("originalTrackId", t.identifier), ("trackName", trackTitle),
                 ("author", trackAuthor)]),
         [{ type := .trackFound }])

/-- `src/providers/soundcloud.ts` `SoundCloudProvider.canHandle`. -/
def SoundCloudProvider.canHandle (t : LavalinkTrackInfo) : Bool :=
  t.sourceName == "soundcloud" && t.uri != ""

/-- Model of the `pathname` of the JavaScript `new URL` builtin, restricted
to absolute URLs of the form `scheme://host/path...`.  A string without
`://` is treated as an invalid URL (the constructor throws); query and
fragment are stripped; a missing path is `/`. -/
def urlPathname (s : String) : Except String String :=
  match dropAfterFirst "://".toList s.toList with
  | none => Except.error ("Invalid URL: " ++ s)
  | some rest =>
    let afterHost := rest.dropWhile (fun c => !(c == '/' || c == '?' || c == '#'))
    match afterHost with
    | '/' :: _ => Except.ok (String.mk (afterHost.takeWhile (fun c => !(c == '?' || c == '#'))))
    | _ => Except.ok "/"

/-- `src/providers/soundcloud.ts` `createRecommendedUrl`: take the pathname
of the seed URL (which may throw), strip a trailing slash, append
`/recommended`. -/
def SoundCloudProvider.createRecommendedUrl (baseUrl trackUrl : String) :
    Except String String :=
  match urlPathname trackUrl with
  | .error e => .error e
  | .ok path =>
    let cleanPath := if strEndsWith path "/" then path.dropRight 1 else path
    .ok (baseUrl ++ cleanPath ++ "/recommended")

/-- Consume an exact literal at the head of the character list. -/
def dropLit (lit cs : List Char) : Option (List Char) :=
  if listStartsWith lit cs then some (cs.drop lit.length) else none

/-- Consume `\s+`: at least one whitespace character, greedily. -/
def dropWs1 : List Char → Option (List Char)
  | [] => none
  | c :: rest =>
    if c.isWhitespace then some (rest.dropWhile Char.isWhitespace) else none

/-- Match of the scrape regex `<a\s+itemprop="url"\s+href="(\/[^"]+)"` at the
start of `cs`: on success, the captured path and the remaining characters. -/
def SoundCloudProvider.scMatchAt (cs : List Char) : Option (String × List Char) :=
  match dropLit "<a".toList cs with
  | none => none
  | some cs1 =>
    match dropWs1 cs1 with
    | none => none
    | some cs2 =>
      match dropLit "itemprop=\"url\"".toList cs2 with
      | none => none
      | some cs3 =>
        match dropWs1 cs3 with
        | none => none
        | some cs4 =>
          match dropLit "href=\"".toList cs4 with
          | none => none
          | some cs5 =>
            match cs5 with
            | '/' :: rest =>
              let body := rest.takeWhile (fun c => !(c == '"'))
              if body = [] then none
              else
                match rest.drop body.length with
                | '"' :: tail => some (String.mk ('/' :: body), tail)
                | _ => none
            | _ => none

/-- The global scan of the `/g` regex exec loop, fuel-bounded (the fuel is
set to the input length, which the loop can never exceed since every match
consumes at least one character). -/
def SoundCloudProvider.scScanGo : Nat → List Char → List String
  | 0, _ => []
  | _, [] => []
  | fuel + 1, c :: rest =>
    match SoundCloudProvider.scMatchAt (c :: rest) with
    | some (path, tail) => path :: SoundCloudProvider.scScanGo fuel tail
    | none => SoundCloudProvider.scScanGo fuel rest

/-- All paths captured by `scLinkPattern` over the page, in order. -/
def SoundCloudProvider.scScan (html : String) : List String :=
  SoundCloudProvider.scScanGo html.toList.length html.toList

/-- `src/providers/soundcloud.ts` `fetchRecommendedTracks`: fetch the page
(the fetch may throw), scrape the anchor paths, prepend the base URL, stop at
`maxTracks` entries. -/
def SoundCloudProvider.fetchRecommendedTracks (fetch : String → Except String String)
    (baseUrl : String) (maxTracks : Nat) (recommendedUrl : String) :
    Except String (List String) :=
  match fetch recommendedUrl with
  | .error e => .error e
  | .ok html =>
    .ok (((SoundCloudProvider.scScan html).take maxTracks).map (fun p => baseUrl ++ p))

/-- `src/providers/soundcloud.ts` `selectRandomTrack`:
`tracks[Math.floor(Math.random() * tracks.length)]`, with the random draw
modelled as `pick % tracks.length`; the unreachable out-of-range access
throws. -/
def SoundCloudProvider.selectRandomTrack (tracks : List String) (pick : Nat) :
    Except String String :=
  match tracks.get? (pick % tracks.length) with
  | some tr => .ok tr
  | none => .error "No tracks available for selection"

/-- The `try` block of `src/providers/soundcloud.ts` `getNextTrack`; a
`.error` is a thrown exception reaching the surrounding `catch`. -/
def SoundCloudProvider.tryGetNextTrack (fetch : String → Except String String)
    (pick maxTracks : Nat) (baseUrl : String) (t : LavalinkTrackInfo) :
    Except String (AutoplayResult × List EmittedEvent) :=
  match BaseProvider.validateTrackInfo t with
  | .error e => .error e
  | .ok _ =>
    if ¬ SoundCloudProvider.canHandle t then
      .ok (BaseProvider.createErrorResult .soundcloud "Cannot handle this track type" none, [])
    else
      match SoundCloudProvider.createRecommendedUrl baseUrl t.uri with
      | .error e => .error e
      | .ok recommendedUrl =>
        match SoundCloudProvider.fetchRecommendedTracks fetch baseUrl maxTracks recommendedUrl with
        | .error e => .error e
        | .ok recommendedTracks =>
          if recommendedTracks.length = 0 then
            .ok (BaseProvider.createErrorResult .soundcloud "No recommended tracks found" none,
                 [{ type := .trackNotFound }])
          else
            match SoundCloudProvider.selectRandomTrack recommendedTracks pick with
            | .error e => .error e
            | .ok selectedTrack =>
              .ok (BaseProvider.createSuccessResult .soundcloud selectedTrack none
                    (some [("originalUrl", t.uri), ("selectedUrl", selectedTrack),
                           ("totalFound", toString recommendedTracks.length)]),
                   [{ type := .trackFound }])

/-- `src/providers/soundcloud.ts` `getNextTrack`: the `try` block with its
`catch`, which converts any thrown error via `handleError`. -/
def SoundCloudProvider.getNextTrack (fetch : String → Except String String)
    (pick maxTracks : Nat) (baseUrl : String) (t : LavalinkTrackInfo) :
    AutoplayResult × List EmittedEvent :=
  match SoundCloudProvider.tryGetNextTrack fetch pick maxTracks baseUrl t with
  | .ok out => out
  | .error msg => BaseProvider.handleError .soundcloud msg none

/-- `src/autoplay.ts`: the resolved configuration (`Required<AutoplayConfig>`). -/
structure AutoplayConfig where
  maxRetries : Nat
  timeout : Nat
  enableEvents : Bool
  rateLimitDelay : Nat
  userAgent : String
  customHeaders : List (String × String)
deriving DecidableEq, Repr

/-- `src/types.ts` `AutoplayConfig`: the caller-supplied partial options. -/
structure AutoplayConfigInput where
  maxRetries : Option Nat := none
  timeout : Option Nat := none
  enableEvents : Option Bool := none
  rateLimitDelay : Option Nat := none
  userAgent : Option String := none
  customHeaders : Option (List (String × String)) := none

/-- `src/autoplay.ts` `mergeConfig`: the `??` defaults of the dispatcher
draft that carries `mapSourceName` (1 retry, 5000 ms timeout, 500 ms rate
limit delay). -/
def LavalinkAutoplay.mergeConfig (c : AutoplayConfigInput) : AutoplayConfig :=
  { maxRetries := c.maxRetries.getD 1
    timeout := c.timeout.getD 5000
    enableEvents := c.enableEvents.getD true
    rateLimitDelay := c.rateLimitDelay.getD 500
    userAgent := c.userAgent.getD "LavalinkAutoplay/1.0.0"
    customHeaders := c.customHeaders.getD [] }

/-- `src/autoplay.ts` `mapSourceName`: the alias table (`sourceMap`). -/
def LavalinkAutoplay.sourceMapLookup : String → Option AutoplaySource
  | "youtube" => some .youtube
  | "yt" => some .youtube
  | "ytm" => some .youtube
  | "ytmsearch" => some .youtube
  | "youtube_music" => some .youtube
  | "spotify" => some .spotify
  | "sp" => some .spotify
  | "spsearch" => some .spotify
  | "soundcloud" => some .soundcloud
  | "sc" => some .soundcloud
  | "scsearch" => some .soundcloud
  | _ => none

/-- `src/autoplay.ts` `mapSourceName`: case-insensitive alias lookup, then
URL-substring sniffing, then the `youtube` default. -/
def LavalinkAutoplay.mapSourceName (sourceName : String)
    (trackInfo : Option LavalinkTrackInfo) : AutoplaySource :=
  match LavalinkAutoplay.sourceMapLookup (strToLower sourceName) with
  | some mapped => mapped
  | none =>
    match trackInfo with
    | some t =>
      if t.uri != "" then
        if strIncludes t.uri "youtube.com" || strIncludes t.uri "youtu.be" then .youtube
        else if strIncludes t.uri "spotify.com" then .spotify
        else if strIncludes t.uri "soundcloud.com" then .soundcloud
        else .youtube
      else .youtube
    | none => .youtube

/-- The keys of the provider registry fixed in the constructor. -/
def LavalinkAutoplay.providerKeys : List AutoplaySource :=
  [.youtube, .spotify, .soundcloud]

/-- `src/autoplay.ts` `validateTrackInfo` (dispatcher draft with
`mapSourceName`): falsy `sourceName` throws; an unregistered mapped source
throws (unreachable for the fixed three-provider registry).  The
`!trackInfo` null check is not representable for a structure value. -/
def LavalinkAutoplay.validateTrackInfo (t : LavalinkTrackInfo) : Except String Unit :=
  if t.sourceName = "" then Except.error "Track source name is required"
  else
    let mappedSource := LavalinkAutoplay.mapSourceName t.sourceName (some t)
    if ¬ LavalinkAutoplay.providerKeys.contains mappedSource then
      Except.error ("Unsupported source: " ++ t.sourceName ++ " (mapped to: " ++ mappedSource.key ++ ")")
    else Except.ok ()

/-- `src/autoplay.ts` `isRateLimited`: `!lastRequest` is JavaScript number
truthiness, so a stored timestamp of `0` counts as absent; otherwise the
source is limited when `now - lastRequest < rateLimitDelay`. -/
def LavalinkAutoplay.isRateLimited (rateLimitMap : List (String × Nat))
    (rateLimitDelay now : Nat) (source : AutoplaySource) : Bool :=
  match alookup rateLimitMap source.key with
  | none => false
  | some lastRequest =>
    if lastRequest = 0 then false
    else decide ((now : Int) - (lastRequest : Int) < (rateLimitDelay : Int))

/-- `Set.prototype.add` on an insertion-ordered set: appends when absent. -/
def jsSetAdd (l : List String) (x : String) : List String :=
  if l.contains x then l else l ++ [x]

/-- The eviction step of `addToHistory`: when the set exceeds 20 entries,
delete the first inserted value (if truthy). -/
def LavalinkAutoplay.histEvict (h : List String) : List String :=
  if h.length > 20 then
    match h with
    | [] => []
    | firstTrack :: rest => if firstTrack != "" then rest else firstTrack :: rest
  else h

/-- The per-guild core of `src/autoplay.ts` `addToHistory`: insert, then
evict the oldest entry past the 20-entry cap. -/
def LavalinkAutoplay.histAdd (h : List String) (trackId : String) : List String :=
  LavalinkAutoplay.histEvict (jsSetAdd h trackId)

/-- `src/autoplay.ts` `addToHistory` on the guild-indexed history map. -/
def LavalinkAutoplay.addToHistory (trackHistory : List (String × List String))
    (guildId trackId : String) : List (String × List String) :=
  aset trackHistory guildId
    (LavalinkAutoplay.histAdd ((alookup trackHistory guildId).getD []) trackId)

/-- The dispatcher's mutable state: the rate-limit ledger and the per-guild
track history. -/
structure DispatcherState where
  rateLimitMap : List (String × Nat) := []
  trackHistory : List (String × List String) := []
deriving DecidableEq, Repr

/-- The joint outcome of `withTimeout(provider.getNextTrack(...))`: the
provider promise resolved first with a result, or the timeout rejection won
the race. -/
inductive ProviderStep where
  | completed (r : AutoplayResult)
  | timedOut
deriving DecidableEq, Repr

/-- A registered provider as the dispatcher sees it: its capability check
and the awaited outcome of its (timeout-raced) `getNextTrack` call. -/
structure ProviderModel where
  canHandle : LavalinkTrackInfo → Bool
  step : LavalinkTrackInfo → List String → ProviderStep

/-- The observable outcome of one dispatcher call: the returned result, the
state after the call, the dispatcher-emitted events, and a call-count spy on
`provider.getNextTrack`. -/
structure CallOut where
  result : AutoplayResult
  state : DispatcherState
  events : List EmittedEvent
  providerCalls : Nat

/-- `src/autoplay.ts` `createErrorResult` (dispatcher): `source` is attached
only when truthy. -/
def LavalinkAutoplay.createErrorResult (error : String) (source : String) : AutoplayResult :=
  { success := false
    error := some error
    source := if source = "" then none else some source }

/-- The exclusion set resolved for a call:
`guildId ? this.trackHistory.get(guildId) || new Set() : new Set()`. -/
def LavalinkAutoplay.excludeIdsFor (st : DispatcherState) (guildId : Option String) :
    List String :=
  if jsDefined guildId then (alookup st.trackHistory (guildId.getD "")).getD [] else []

/-- `src/autoplay.ts` `getNextTrack(trackInfo, guildId?)`, the dispatcher
draft with `mapSourceName` and `trackHistory`.  `providers` is the registry
fixed at construction; `now` is the clock read of this call (`Date.now()`);
a thrown error (validation, timeout rejection) reaches the surrounding
`catch`, which builds an error result tagged with the raw `sourceName`. -/
def LavalinkAutoplay.getNextTrack (cfg : AutoplayConfig)
    (providers : AutoplaySource → ProviderModel) (st : DispatcherState)
    (now : Nat) (t : LavalinkTrackInfo) (guildId : Option String) : CallOut :=
  match LavalinkAutoplay.validateTrackInfo t with
  | .error msg =>
    { result := LavalinkAutoplay.createErrorResult msg t.sourceName
      state := st
      events := [{ type := .error, errorMsg := some msg }]
      providerCalls := 0 }
  | .ok _ =>
    if LavalinkAutoplay.isRateLimited st.rateLimitMap cfg.rateLimitDelay now
        (LavalinkAutoplay.mapSourceName t.sourceName (some t)) then
      { result := LavalinkAutoplay.createErrorResult "Rate limited for this source"
          (LavalinkAutoplay.mapSourceName t.sourceName (some t)).key
        state := st
        events := [{ type := .rateLimited, errorMsg := some "Rate limited for this source" }]
        providerCalls := 0 }
    else
      if ¬ (providers (LavalinkAutoplay.mapSourceName t.sourceName (some t))).canHandle t then
        { result := LavalinkAutoplay.createErrorResult "Provider cannot handle this track"
            (LavalinkAutoplay.mapSourceName t.sourceName (some t)).key
          state := st
          events := [{ type := .error, errorMsg := some "Provider cannot handle this track" }]
          providerCalls := 0 }
      else
        match (providers (LavalinkAutoplay.mapSourceName t.sourceName (some t))).step t
            (LavalinkAutoplay.excludeIdsFor st guildId) with
        | .timedOut =>
          { result := LavalinkAutoplay.createErrorResult
              ("Operation timed out after " ++ toString cfg.timeout ++ "ms") t.sourceName
            state := st
            events := [{ type := .error,
                         errorMsg := some ("Operation timed out after " ++ toString cfg.timeout ++ "ms") }]
            providerCalls := 1 }
        | .completed r =>
          { result := r
            state :=
              { rateLimitMap := aset st.rateLimitMap
                  (LavalinkAutoplay.mapSourceName t.sourceName (some t)).key now
                trackHistory :=
                  if r.success && jsDefined guildId && jsDefined r.trackId then
                    LavalinkAutoplay.addToHistory st.trackHistory (guildId.getD "")
                      (r.trackId.getD "")
                  else st.trackHistory }
            events := if r.success then [{ type := .success }] else []
            providerCalls := 1 }

/-- The constructor's provider registry with the real capability checks and
the awaited provider behaviours supplied per platform. -/
def LavalinkAutoplay.mkProviders
    (ytStep spStep scStep : LavalinkTrackInfo → List String → ProviderStep) :
    AutoplaySource → ProviderModel
  | .youtube => { canHandle := YouTubeProvider.canHandle, step := ytStep }
  | .spotify => { canHandle := SpotifyProvider.canHandle, step := spStep }
  | .soundcloud => { canHandle := SoundCloudProvider.canHandle, step := scStep }

/-- `src/autoplay.ts` `clearHistory`. -/
def LavalinkAutoplay.clearHistory (trackHistory : List (String × List String))
    (guildId : Option String) : List (String × List String) :=
  match guildId with
  | some g => adelete trackHistory g
  | none => []

/-- The dispatcher operations that touch the per-guild history, as the
claims quantify over call sequences: `record` is the post-success insertion
guarded by `if (guildId && result.trackId)`, the other two are
`clearHistory`. -/
inductive HistoryOp where
  | record (guildId : Option String) (trackId : Option String)
  | clearOne (guildId : String)
  | clearAll

/-- Apply one history-touching dispatcher operation. -/
def applyHistoryOp (trackHistory : List (String × List String)) :
    HistoryOp → List (String × List String)
  | .record guildId trackId =>
    if jsDefined guildId && jsDefined trackId then
      LavalinkAutoplay.addToHistory trackHistory (guildId.getD "") (trackId.getD "")
    else trackHistory
  | .clearOne g => LavalinkAutoplay.clearHistory trackHistory (some g)
  | .clearAll => LavalinkAutoplay.clearHistory trackHistory none

/-- The well-shapedness of an `AutoplayResult`: a success carries a url and
a source and no error; a failure carries an error and neither url nor
trackId. -/
def wellShapedB (r : AutoplayResult) : Bool :=
  if r.success then r.url.isSome && r.source.isSome && r.error.isNone
  else r.error.isSome && r.url.isNone && r.trackId.isNone

/-- A heap of `Map` objects keyed by address, for reasoning about the
aliasing behaviour of `getRateLimitStatus` (which returns
`new Map(this.rateLimitMap)` rather than the internal reference). -/
abbrev RLHeap := List (Nat × List (String × Nat))

/-- The dispatcher as a heap client: it holds the address of its internal
`rateLimitMap` object. -/
structure HeapDispatcher where
  rlAddr : Nat

/-- An address unused by the heap. -/
def freshAddr (h : RLHeap) : Nat :=
  (h.map Prod.fst).foldr Nat.max 0 + 1

/-- `new Map(m)`: rebuild the entries by inserting them in iteration
order. -/
def mapCopy (m : List (String × Nat)) : List (String × Nat) :=
  m.foldl (fun acc kv => aset acc kv.1 kv.2) []

/-- `src/autoplay.ts` `getRateLimitStatus`: allocate a fresh `Map` holding a
copy of the internal ledger (`new Map(this.rateLimitMap)`) and return its
address. -/
def LavalinkAutoplay.getRateLimitStatus (h : RLHeap) (d : HeapDispatcher) :
    RLHeap × Nat :=
  (h ++ [(freshAddr h, mapCopy ((alookup h d.rlAddr).getD []))], freshAddr h)

/-- The mutations a caller can apply to a `Map` it received. -/
inductive MapMutation where
  | set (k : String) (v : Nat)
  | del (k : String)
  | clear

/-- Apply a caller mutation to the `Map` object at address `a`. -/
def applyMutation (h : RLHeap) (a : Nat) : MapMutation → RLHeap
  | .set k v => aset h a (aset ((alookup h a).getD []) k v)
  | .del k => aset h a (adelete ((alookup h a).getD []) k)
  | .clear => aset h a []

/-- `isRateLimited` as read through the heap. -/
def heapIsRateLimited (h : RLHeap) (d : HeapDispatcher)
    (rateLimitDelay now : Nat) (source : AutoplaySource) : Bool :=
  LavalinkAutoplay.isRateLimited ((alookup h d.rlAddr).getD []) rateLimitDelay now source

/-- A concrete track: the Rick Astley seed of end-to-end scenario 1. -/
def rickTrack : LavalinkTrackInfo :=
  { identifier := "dQw4w9WgXcQ"
    isSeekable := true
    author := "Rick Astley"
    length := 212000
    isStream := false
    position := 0
    title := "Never Gonna Give You Up"
    uri := "https://youtube.com/watch?v=dQw4w9WgXcQ"
    sourceName := "youtube" }

/-- The same track tagged with the raw alias `yt` instead of the canonical
name. -/
def rickTrackAlias : LavalinkTrackInfo :=
  { rickTrack with sourceName := "yt" }

/-- The default configuration of the `mapSourceName` dispatcher draft. -/
def cfgDefault : AutoplayConfig :=
  LavalinkAutoplay.mergeConfig {}

/-- The registry whose YouTube provider is the radio-mode draft (the
External Resolver Collaborator absent) and whose Spotify and SoundCloud
behaviours resolve instantly with their provider outputs on empty
collaborators. -/
def radioRegistry : AutoplaySource → ProviderModel :=
  LavalinkAutoplay.mkProviders
    (fun t _ => .completed (YouTubeRadioProvider.getNextTrack t).1)
    (fun t excl => .completed (SpotifyProvider.getNextTrack none (fun _ => 0) 10 t excl).1)
    (fun t _ => .completed (SoundCloudProvider.getNextTrack (fun _ => .error "fetch failed") 0 40 "https://soundcloud.com" t).1)

/-- The registry whose YouTube provider is the search draft over a given
resolver collaborator. -/
def searchRegistry (eura : EuraResolver)
    (spStep scStep : LavalinkTrackInfo → List String → ProviderStep) :
    AutoplaySource → ProviderModel :=
  LavalinkAutoplay.mkProviders
    (fun t excl => .completed (YouTubeSearchProvider.getNextTrack eura t excl).1)
    spStep scStep

/-- A track with an unrecognized raw source tag whose URI contains both
`youtube.com` and `spotify.com`. -/
def mixedUriTrack : LavalinkTrackInfo :=
  { identifier := "abc"
    isSeekable := true
    author := ""
    length := 0
    isStream := false
    position := 0
    title := ""
    uri := "https://youtube.com/redirect?target=spotify.com/track/x"
    sourceName := "web" }

/-- A SoundCloud seed track. -/
def scTrack : LavalinkTrackInfo :=
  { identifier := ""
    isSeekable := true
    author := "Artist"
    length := 120000
    isStream := false
    position := 0
    title := "Track"
    uri := "https://soundcloud.com/artist/track-1"
    sourceName := "soundcloud" }

/-- A recommended-tracks page containing one anchor in the scraped
micro-format. -/
def scHtml : String :=
  "<p><a itemprop=\"url\" href=\"/artist/other-track\">x</a></p>"

/-- A Spotify seed track with a 22-character identifier. -/
def spTrack : LavalinkTrackInfo :=
  { identifier := "4iV5W9VYca1Ur1UxP1C1Fd"
    isSeekable := true
    author := "Artist"
    length := 180000
    isStream := false
    position := 0
    title := "Song"
    uri := "https://open.spotify.com/track/4iV5W9VYca1Ur1UxP1C1Fd"
    sourceName := "spotify" }

/-- The registry in which every provider call loses the timeout race. -/
def timeoutRegistry : AutoplaySource → ProviderModel :=
  LavalinkAutoplay.mkProviders (fun _ _ => .timedOut) (fun _ _ => .timedOut) (fun _ _ => .timedOut)

/-- A track with an unrecognized raw source tag whose URI contains
`spotify.com` only. -/
def spotifyUriTrack : LavalinkTrackInfo :=
  { mixedUriTrack with uri := "https://open.spotify.com/track/x" }

/-- A concrete 20-entry exclusion history. -/
def hist20 : List String :=
  ["t01", "t02", "t03", "t04", "t05", "t06", "t07", "t08", "t09", "t10",
   "t11", "t12", "t13", "t14", "t15", "t16", "t17", "t18", "t19", "t20"]

/-- A dispatcher state in which consumer `g1` has already been served the
track `zzz`. -/
def servedState : DispatcherState :=
  { rateLimitMap := [], trackHistory := [("g1", ["zzz"])] }

/-! ### Helper lemmas -/

theorem alookup_aset {κ β : Type} [DecidableEq κ] (m : List (κ × β)) (k key : κ) (v : β) :
    alookup (aset m k v) key = if k = key then some v else alookup m key := by
  induction m with
  | nil => simp [aset, alookup]
  | cons p rest ih =>
    obtain ⟨pk, pv⟩ := p
    by_cases hpk : pk = k
    · subst hpk
      by_cases hk : pk = key <;> simp [aset, alookup, hk]
    · by_cases hk : pk = key
      · subst hk
        have : ¬ k = pk := fun h => hpk h.symm
        simp [aset, alookup, hpk, this]
      · simp [aset, alookup, hpk, hk, ih]

theorem alookup_append {κ β : Type} [DecidableEq κ] (l₁ l₂ : List (κ × β)) (key : κ) :
    alookup (l₁ ++ l₂) key =
      match alookup l₁ key with
      | some v => some v
      | none => alookup l₂ key := by
  induction l₁ with
  | nil => simp [alookup]
  | cons p rest ih =>
    by_cases hk : p.1 = key <;> simp [alookup, hk, ih]

theorem mem_keys_of_alookup_eq_some {κ β : Type} [DecidableEq κ]
    (m : List (κ × β)) (k : κ) (v : β) (h : alookup m k = some v) :
    k ∈ m.map Prod.fst := by
  induction m with
  | nil => simp [alookup] at h
  | cons p rest ih =>
    by_cases hk : p.1 = k
    · simp [hk]
    · simp [alookup, hk] at h
      simp [ih h]

theorem mem_pair_of_alookup_eq_some {κ β : Type} [DecidableEq κ]
    (m : List (κ × β)) (k : κ) (v : β) (h : alookup m k = some v) :
    (k, v) ∈ m := by
  induction m with
  | nil => simp [alookup] at h
  | cons p rest ih =>
    obtain ⟨pk, pv⟩ := p
    by_cases hk : pk = k
    · subst hk
      simp [alookup] at h
      subst h
      exact List.mem_cons_self _ _
    · simp [alookup, hk] at h
      exact List.mem_cons_of_mem _ (ih h)

theorem mem_aset {κ β : Type} [DecidableEq κ] (m : List (κ × β)) (k : κ) (v : β)
    (p : κ × β) (h : p ∈ aset m k v) : p ∈ m ∨ p = (k, v) := by
  induction m with
  | nil => simp [aset] at h; simp [h]
  | cons q rest ih =>
    obtain ⟨qk, qv⟩ := q
    by_cases hk : qk = k
    · simp [aset, hk] at h
      rcases h with h | h
      · simp [h, hk]
      · simp [h]
    · simp [aset, hk] at h
      rcases h with h | h
      · simp [h]
      · rcases ih h with h' | h'
        · simp [h']
        · simp [h']

theorem mem_adelete {κ β : Type} [DecidableEq κ] (m : List (κ × β)) (k : κ)
    (p : κ × β) (h : p ∈ adelete m k) : p ∈ m := by
  induction m with
  | nil => simp [adelete] at h
  | cons q rest ih =>
    by_cases hk : q.1 = k
    · simp [adelete, hk] at h
      simp [h]
    · simp [adelete, hk] at h
      rcases h with h | h
      · simp [h]
      · simp [ih h]

theorem le_foldr_max (l : List Nat) (k : Nat) (h : k ∈ l) :
    k ≤ l.foldr Nat.max 0 := by
  induction l with
  | nil => simp at h
  | cons a rest ih =>
    rcases List.mem_cons.mp h with h | h
    · subst h
      rw [List.foldr_cons]
      exact Nat.le_max_left _ _
    · rw [List.foldr_cons]
      exact le_trans (ih h) (Nat.le_max_right _ _)

theorem alookup_freshAddr (h : RLHeap) : alookup h (freshAddr h) = none := by
  cases hv : alookup h (freshAddr h) with
  | none => rfl
  | some v =>
    have hmem := mem_keys_of_alookup_eq_some h (freshAddr h) v hv
    have hle := le_foldr_max (h.map Prod.fst) (freshAddr h) hmem
    have hfa : freshAddr h = (h.map Prod.fst).foldr Nat.max 0 + 1 := rfl
    omega

theorem strToLower_empty : strToLower "" = "" := by decide

theorem validate_ok_of_sourceName_ne (t : LavalinkTrackInfo) (h : t.sourceName ≠ "") :
    LavalinkAutoplay.validateTrackInfo t = .ok () := by
  unfold LavalinkAutoplay.validateTrackInfo
  rw [if_neg h]
  have hc : LavalinkAutoplay.mapSourceName t.sourceName (some t) ∈
      LavalinkAutoplay.providerKeys := by
    cases LavalinkAutoplay.mapSourceName t.sourceName (some t) <;> decide
  simp [hc]

theorem sourceName_ne_of_alias (t : LavalinkTrackInfo) (src : AutoplaySource)
    (halias : LavalinkAutoplay.sourceMapLookup (strToLower t.sourceName) = some src) :
    t.sourceName ≠ "" := by
  intro he
  rw [he, strToLower_empty] at halias
  rw [show LavalinkAutoplay.sourceMapLookup "" = none from by decide] at halias
  exact Option.noConfusion halias

theorem mapSourceName_of_alias (t : LavalinkTrackInfo) (src : AutoplaySource)
    (halias : LavalinkAutoplay.sourceMapLookup (strToLower t.sourceName) = some src) :
    LavalinkAutoplay.mapSourceName t.sourceName (some t) = src := by
  unfold LavalinkAutoplay.mapSourceName
  rw [halias]

/-- C9: end-to-end scenario 1 — with the External Resolver Collaborator
absent and the radio-mode YouTube draft in the registry, the Rick Astley
seed track yields a success whose url is the deterministic radio URL and
whose trackId is the seed identifier. -/
theorem c9_radio_mode_end_to_end :
    (LavalinkAutoplay.getNextTrack cfgDefault radioRegistry {} 1000 rickTrack none).result.success = true ∧
    (LavalinkAutoplay.getNextTrack cfgDefault radioRegistry {} 1000 rickTrack none).result.url =
      some "https://www.youtube.com/watch?v=dQw4w9WgXcQ&list=RDdQw4w9WgXcQ" ∧
    (LavalinkAutoplay.getNextTrack cfgDefault radioRegistry {} 1000 rickTrack none).result.trackId =
      some "dQw4w9WgXcQ" := by
  decide

/-- C8 counterexample: a trackInfo with unrecognized sourceName whose uri
contains the substring "spotify.com" for which canonicalization does NOT
resolve to spotify — because the URL sniffing tests for "youtube.com"
first and the uri also contains that substring. -/
theorem c8_counterexample_mixed_uri :
    LavalinkAutoplay.sourceMapLookup (strToLower mixedUriTrack.sourceName) = none ∧
    strIncludes mixedUriTrack.uri "spotify.com" = true ∧
    LavalinkAutoplay.mapSourceName mixedUriTrack.sourceName (some mixedUriTrack) =
      .youtube := by
  decide

/-- C8 (amended): for every trackInfo whose sourceName is not in the alias
table and whose uri contains "spotify.com" but neither "youtube.com" nor
"youtu.be", canonicalization resolves to spotify via the URL-sniffing
fallback. -/
theorem c8_spotify_url_sniffing (t : LavalinkTrackInfo)
    (hlook : LavalinkAutoplay.sourceMapLookup (strToLower t.sourceName) = none)
    (hsp : strIncludes t.uri "spotify.com" = true)
    (hyt : strIncludes t.uri "youtube.com" = false)
    (hyb : strIncludes t.uri "youtu.be" = false) :
    LavalinkAutoplay.mapSourceName t.sourceName (some t) = .spotify := by
  have huri : t.uri ≠ "" := by
    intro he
    rw [he] at hsp
    rw [show strIncludes "" "spotify.com" = false from by decide] at hsp
    exact Bool.noConfusion hsp
  have huri2 : (t.uri != "") = true := bne_iff_ne.mpr huri
  unfold LavalinkAutoplay.mapSourceName
  rw [hlook]
  simp [huri2, hsp, hyt, hyb]

/-- C8 witness for the amended theorem. -/
theorem c8_witness :
    LavalinkAutoplay.mapSourceName spotifyUriTrack.sourceName (some spotifyUriTrack) =
      .spotify :=
  c8_spotify_url_sniffing spotifyUriTrack (by decide) (by decide) (by decide) (by decide)

/-- C1 counterexample: the recognized alias "yt" with a valid identifier is
canonicalized to youtube, yet the call does NOT proceed past the provider
capability check as it would with the canonical name: `canHandle` compares
the raw sourceName with "youtube", so the aliased call fails with
"Provider cannot handle this track" and never invokes the provider, while
the identical track tagged "youtube" succeeds. -/
theorem c1_counterexample_alias_yt :
    LavalinkAutoplay.mapSourceName rickTrackAlias.sourceName (some rickTrackAlias) = .youtube ∧
    (LavalinkAutoplay.getNextTrack cfgDefault radioRegistry {} 1000 rickTrackAlias none).result.error =
      some "Provider cannot handle this track" ∧
    (LavalinkAutoplay.getNextTrack cfgDefault radioRegistry {} 1000 rickTrackAlias none).result.success = false ∧
    (LavalinkAutoplay.getNextTrack cfgDefault radioRegistry {} 1000 rickTrackAlias none).providerCalls = 0 ∧
    (LavalinkAutoplay.getNextTrack cfgDefault radioRegistry {} 1000 rickTrack none).providerCalls = 1 ∧
    (LavalinkAutoplay.getNextTrack cfgDefault radioRegistry {} 1000 rickTrack none).result.success = true := by
  decide

/-- C1 (amended): every recognized alias is canonicalized case-insensitively
to its platform, so the call never fails at provider lookup; but the
capability check compares the raw sourceName against the canonical name, so
a call whose sourceName is a recognized non-canonical alias fails the
capability check with "Provider cannot handle this track" and never reaches
the provider, unlike the same call with the canonical name. -/
theorem c1_alias_canonicalized_but_capability_uses_raw_name
    (cfg : AutoplayConfig)
    (ytStep spStep scStep : LavalinkTrackInfo → List String → ProviderStep)
    (st : DispatcherState) (now : Nat) (g : Option String)
    (t : LavalinkTrackInfo) (src : AutoplaySource)
    (halias : LavalinkAutoplay.sourceMapLookup (strToLower t.sourceName) = some src)
    (hraw : t.sourceName ≠ src.key)
    (hnotrl : LavalinkAutoplay.isRateLimited st.rateLimitMap cfg.rateLimitDelay now src = false) :
    LavalinkAutoplay.mapSourceName t.sourceName (some t) = src ∧
    (LavalinkAutoplay.getNextTrack cfg (LavalinkAutoplay.mkProviders ytStep spStep scStep)
        st now t g).result.error = some "Provider cannot handle this track" ∧
    (LavalinkAutoplay.getNextTrack cfg (LavalinkAutoplay.mkProviders ytStep spStep scStep)
        st now t g).result.success = false ∧
    (LavalinkAutoplay.getNextTrack cfg (LavalinkAutoplay.mkProviders ytStep spStep scStep)
        st now t g).providerCalls = 0 ∧
    (LavalinkAutoplay.getNextTrack cfg (LavalinkAutoplay.mkProviders ytStep spStep scStep)
        st now t g).state = st := by
  have hsn : t.sourceName ≠ "" := sourceName_ne_of_alias t src halias
  have hmap : LavalinkAutoplay.mapSourceName t.sourceName (some t) = src :=
    mapSourceName_of_alias t src halias
  have hch : (LavalinkAutoplay.mkProviders ytStep spStep scStep src).canHandle t = false := by
    cases src with
    | youtube =>
      have hb : (t.sourceName == "youtube") = false := by
        simp [AutoplaySource.key] at hraw
        exact beq_eq_false_iff_ne.mpr hraw
      simp [LavalinkAutoplay.mkProviders, YouTubeProvider.canHandle, hb]
    | spotify =>
      have hb : (t.sourceName == "spotify") = false := by
        simp [AutoplaySource.key] at hraw
        exact beq_eq_false_iff_ne.mpr hraw
      simp [LavalinkAutoplay.mkProviders, SpotifyProvider.canHandle, hb]
    | soundcloud =>
      have hb : (t.sourceName == "soundcloud") = false := by
        simp [AutoplaySource.key] at hraw
        exact beq_eq_false_iff_ne.mpr hraw
      simp [LavalinkAutoplay.mkProviders, SoundCloudProvider.canHandle, hb]
  have hout : LavalinkAutoplay.getNextTrack cfg (LavalinkAutoplay.mkProviders ytStep spStep scStep)
      st now t g =
      { result := LavalinkAutoplay.createErrorResult "Provider cannot handle this track" src.key
        state := st
        events := [{ type := .error, errorMsg := some "Provider cannot handle this track" }]
        providerCalls := 0 } := by
    unfold LavalinkAutoplay.getNextTrack
    rw [validate_ok_of_sourceName_ne t hsn]
    simp only [hmap, hnotrl, Bool.false_eq_true, if_false, hch, not_false_eq_true, if_true]
  refine ⟨hmap, ?_, ?_, ?_, ?_⟩ <;>
    rw [hout] <;> rfl

/-- C1 witness for the amended theorem, at the alias "yt". -/
theorem c1_witness :
    LavalinkAutoplay.mapSourceName rickTrackAlias.sourceName (some rickTrackAlias) =
      .youtube ∧
    (LavalinkAutoplay.getNextTrack cfgDefault
        (LavalinkAutoplay.mkProviders (fun _ _ => .timedOut) (fun _ _ => .timedOut) (fun _ _ => .timedOut))
        {} 1000 rickTrackAlias none).providerCalls = 0 :=
  ⟨(c1_alias_canonicalized_but_capability_uses_raw_name cfgDefault
      (fun _ _ => .timedOut) (fun _ _ => .timedOut) (fun _ _ => .timedOut)
      {} 1000 none rickTrackAlias .youtube (by decide) (by decide) (by decide)).1,
   (c1_alias_canonicalized_but_capability_uses_raw_name cfgDefault
      (fun _ _ => .timedOut) (fun _ _ => .timedOut) (fun _ _ => .timedOut)
      {} 1000 none rickTrackAlias .youtube (by decide) (by decide) (by decide)).2.2.2.1⟩

theorem rate_limited_gate
    (cfg : AutoplayConfig) (provs : AutoplaySource → ProviderModel)
    (st : DispatcherState) (now : Nat) (t : LavalinkTrackInfo) (g : Option String)
    (hval : t.sourceName ≠ "")
    (hrl : LavalinkAutoplay.isRateLimited st.rateLimitMap cfg.rateLimitDelay now
        (LavalinkAutoplay.mapSourceName t.sourceName (some t)) = true) :
    LavalinkAutoplay.getNextTrack cfg provs st now t g =
      { result := LavalinkAutoplay.createErrorResult "Rate limited for this source"
          (LavalinkAutoplay.mapSourceName t.sourceName (some t)).key
        state := st
        events := [{ type := .rateLimited, errorMsg := some "Rate limited for this source" }]
        providerCalls := 0 } := by
  unfold LavalinkAutoplay.getNextTrack
  rw [validate_ok_of_sourceName_ne t hval]
  simp only [hrl, if_true]

/-- C2: when a second call canonicalizes to the same source as a first call
whose attempt stamped the ledger at `now1`, and the second call starts
within `rateLimitDelay` of that stamp, the second call fails with the
rate-limited error, invokes no provider (the call-count spy stays 0, and the
output does not depend on the registry at all), leaves the state — ledger
and histories — untouched, and emits exactly the rateLimited event. -/
theorem c2_rate_limit_short_circuits_second_call
    (cfg : AutoplayConfig) (provs provs2 : AutoplaySource → ProviderModel)
    (st0 : DispatcherState) (now1 now2 : Nat)
    (t1 t2 : LavalinkTrackInfo) (g1 g2 : Option String)
    (hsrc : LavalinkAutoplay.mapSourceName t2.sourceName (some t2)
          = LavalinkAutoplay.mapSourceName t1.sourceName (some t1))
    (hstamp : alookup (LavalinkAutoplay.getNextTrack cfg provs st0 now1 t1 g1).state.rateLimitMap
        (LavalinkAutoplay.mapSourceName t1.sourceName (some t1)).key = some now1)
    (hpos : 0 < now1) (hle : now1 ≤ now2)
    (hlt : now2 - now1 < cfg.rateLimitDelay)
    (hval : t2.sourceName ≠ "") :
    (LavalinkAutoplay.getNextTrack cfg provs2
        (LavalinkAutoplay.getNextTrack cfg provs st0 now1 t1 g1).state now2 t2 g2).result.success = false ∧
    (LavalinkAutoplay.getNextTrack cfg provs2
        (LavalinkAutoplay.getNextTrack cfg provs st0 now1 t1 g1).state now2 t2 g2).result.error =
      some "Rate limited for this source" ∧
    (LavalinkAutoplay.getNextTrack cfg provs2
        (LavalinkAutoplay.getNextTrack cfg provs st0 now1 t1 g1).state now2 t2 g2).state =
      (LavalinkAutoplay.getNextTrack cfg provs st0 now1 t1 g1).state ∧
    (LavalinkAutoplay.getNextTrack cfg provs2
        (LavalinkAutoplay.getNextTrack cfg provs st0 now1 t1 g1).state now2 t2 g2).providerCalls = 0 ∧
    (LavalinkAutoplay.getNextTrack cfg provs2
        (LavalinkAutoplay.getNextTrack cfg provs st0 now1 t1 g1).state now2 t2 g2).events =
      [{ type := .rateLimited, errorMsg := some "Rate limited for this source" }] ∧
    (∀ provs3 : AutoplaySource → ProviderModel,
      LavalinkAutoplay.getNextTrack cfg provs3
        (LavalinkAutoplay.getNextTrack cfg provs st0 now1 t1 g1).state now2 t2 g2 =
      LavalinkAutoplay.getNextTrack cfg provs2
        (LavalinkAutoplay.getNextTrack cfg provs st0 now1 t1 g1).state now2 t2 g2) := by
  have hrl : LavalinkAutoplay.isRateLimited
      (LavalinkAutoplay.getNextTrack cfg provs st0 now1 t1 g1).state.rateLimitMap
      cfg.rateLimitDelay now2
      (LavalinkAutoplay.mapSourceName t2.sourceName (some t2)) = true := by
    unfold LavalinkAutoplay.isRateLimited
    rw [hsrc]
    simp only [hstamp]
    have hne : ¬ (now1 = 0) := by omega
    simp only [if_neg hne, decide_eq_true_eq]
    omega
  have hout := rate_limited_gate cfg provs2
    (LavalinkAutoplay.getNextTrack cfg provs st0 now1 t1 g1).state now2 t2 g2 hval hrl
  refine ⟨?_, ?_, ?_, ?_, ?_, ?_⟩
  · rw [hout]; rfl
  · rw [hout]; rfl
  · rw [hout]
  · rw [hout]
  · rw [hout]
  · intro provs3
    rw [hout, rate_limited_gate cfg provs3
      (LavalinkAutoplay.getNextTrack cfg provs st0 now1 t1 g1).state now2 t2 g2 hval hrl]

/-- C2 witness: two concrete calls 200 ms apart with a 500 ms delay. -/
theorem c2_witness :
    (LavalinkAutoplay.getNextTrack cfgDefault radioRegistry
        (LavalinkAutoplay.getNextTrack cfgDefault radioRegistry {} 1000 rickTrack none).state
        1200 rickTrack none).result.success = false ∧
    (LavalinkAutoplay.getNextTrack cfgDefault radioRegistry
        (LavalinkAutoplay.getNextTrack cfgDefault radioRegistry {} 1000 rickTrack none).state
        1200 rickTrack none).providerCalls = 0 :=
  ⟨(c2_rate_limit_short_circuits_second_call cfgDefault radioRegistry radioRegistry
      {} 1000 1200 rickTrack rickTrack none none rfl (by decide) (by decide) (by decide)
      (by decide) (by decide)).1,
   (c2_rate_limit_short_circuits_second_call cfgDefault radioRegistry radioRegistry
      {} 1000 1200 rickTrack rickTrack none none rfl (by decide) (by decide) (by decide)
      (by decide) (by decide)).2.2.2.1⟩

/-- C3 counterexample: a call that passes validation, the rate-limit gate
and the capability check and invokes the provider (spy = 1), but whose
provider call loses the timeout race — the thrown TimeoutError reaches the
catch block before `updateRateLimit` runs, so the ledger is NOT stamped,
refuting the "in every outcome, timeout alike" part of the claim. -/
theorem c3_counterexample_timeout_skips_stamp :
    (LavalinkAutoplay.getNextTrack cfgDefault timeoutRegistry {} 1000 rickTrack none).providerCalls = 1 ∧
    (LavalinkAutoplay.getNextTrack cfgDefault timeoutRegistry {} 1000 rickTrack none).result.success = false ∧
    (LavalinkAutoplay.getNextTrack cfgDefault timeoutRegistry {} 1000 rickTrack none).result.error =
      some "Operation timed out after 5000ms" ∧
    (LavalinkAutoplay.getNextTrack cfgDefault timeoutRegistry {} 1000 rickTrack none).state.rateLimitMap = [] := by
  decide

/-- C3 (amended): the ledger entry for the canonical source is stamped with
the call's clock reading whenever the provider attempt completes within the
timeout — in both the provider-success and provider-failure outcomes — but
on the timeout path the thrown TimeoutError bypasses the stamp and the
ledger is left unchanged. -/
theorem c3_ledger_stamped_on_completed_attempt
    (cfg : AutoplayConfig) (provs : AutoplaySource → ProviderModel)
    (st : DispatcherState) (now : Nat) (t : LavalinkTrackInfo) (g : Option String)
    (r : AutoplayResult)
    (hval : t.sourceName ≠ "")
    (hrl : LavalinkAutoplay.isRateLimited st.rateLimitMap cfg.rateLimitDelay now
        (LavalinkAutoplay.mapSourceName t.sourceName (some t)) = false)
    (hch : (provs (LavalinkAutoplay.mapSourceName t.sourceName (some t))).canHandle t = true)
    (hstep : (provs (LavalinkAutoplay.mapSourceName t.sourceName (some t))).step t
        (LavalinkAutoplay.excludeIdsFor st g) =
        .completed r) :
    alookup (LavalinkAutoplay.getNextTrack cfg provs st now t g).state.rateLimitMap
      (LavalinkAutoplay.mapSourceName t.sourceName (some t)).key = some now ∧
    (LavalinkAutoplay.getNextTrack cfg provs st now t g).providerCalls = 1 ∧
    (LavalinkAutoplay.getNextTrack cfg provs st now t g).result = r ∧
    ((provs (LavalinkAutoplay.mapSourceName t.sourceName (some t))).step t
        (LavalinkAutoplay.excludeIdsFor st g) =
        .timedOut →
      (LavalinkAutoplay.getNextTrack cfg provs st now t g).state = st) := by
  have hout : LavalinkAutoplay.getNextTrack cfg provs st now t g =
      { result := r
        state :=
          { rateLimitMap := aset st.rateLimitMap
              (LavalinkAutoplay.mapSourceName t.sourceName (some t)).key now
            trackHistory :=
              if r.success && jsDefined g && jsDefined r.trackId then
                LavalinkAutoplay.addToHistory st.trackHistory (g.getD "") (r.trackId.getD "")
              else st.trackHistory }
        events := if r.success then [{ type := .success }] else []
        providerCalls := 1 } := by
    unfold LavalinkAutoplay.getNextTrack
    rw [validate_ok_of_sourceName_ne t hval]
    simp only [hrl, Bool.false_eq_true, if_false, hch, not_true_eq_false, hstep]
  refine ⟨?_, ?_, ?_, ?_⟩
  · rw [hout]
    show alookup (aset st.rateLimitMap
      (LavalinkAutoplay.mapSourceName t.sourceName (some t)).key now) _ = some now
    rw [alookup_aset]
    simp
  · rw [hout]
  · rw [hout]
  · intro htimeout
    rw [hstep] at htimeout
    exact absurd htimeout (by simp)

/-- C3 witness for the amended theorem, at a completing radio-mode call. -/
theorem c3_witness :
    alookup (LavalinkAutoplay.getNextTrack cfgDefault radioRegistry {} 1000 rickTrack
        none).state.rateLimitMap
      (LavalinkAutoplay.mapSourceName rickTrack.sourceName (some rickTrack)).key = some 1000 ∧
    (LavalinkAutoplay.getNextTrack cfgDefault radioRegistry {} 1000 rickTrack none).providerCalls = 1 :=
  ⟨(c3_ledger_stamped_on_completed_attempt cfgDefault radioRegistry {} 1000 rickTrack none
      (YouTubeRadioProvider.getNextTrack rickTrack).1
      (by decide) (by decide) (by decide) (by decide)).1,
   (c3_ledger_stamped_on_completed_attempt cfgDefault radioRegistry {} 1000 rickTrack none
      (YouTubeRadioProvider.getNextTrack rickTrack).1
      (by decide) (by decide) (by decide) (by decide)).2.1⟩

theorem contains_eq_false_of_not_mem {x : String} {l : List String}
    (h : x ∉ l) : l.contains x = false := by
  cases hc : l.contains x with
  | false => rfl
  | true =>
    have : x ∈ l := by simpa [List.contains] using hc
    exact absurd this h

theorem histAdd_inv (h : List String) (x : String)
    (hlen : h.length ≤ 20) (hns : "" ∉ h) (hx : x ≠ "") :
    (LavalinkAutoplay.histAdd h x).length ≤ 20 ∧ "" ∉ LavalinkAutoplay.histAdd h x := by
  unfold LavalinkAutoplay.histAdd jsSetAdd
  by_cases hc : h.contains x = true
  · rw [if_pos hc]
    unfold LavalinkAutoplay.histEvict
    rw [if_neg (by omega)]
    exact ⟨hlen, hns⟩
  · rw [if_neg hc]
    have hns2 : "" ∉ h ++ [x] := by
      intro hmem
      rcases List.mem_append.mp hmem with hm | hm
      · exact hns hm
      · simp at hm
        exact hx hm.symm
    unfold LavalinkAutoplay.histEvict
    by_cases hgt : (h ++ [x]).length > 20
    · rw [if_pos hgt]
      cases h with
      | nil => simp at hgt
      | cons f hs =>
        simp only [List.cons_append]
        have hf : f ≠ "" := fun he => hns (he ▸ List.mem_cons_self f hs)
        have hf2 : (f != "") = true := bne_iff_ne.mpr hf
        simp only [hf2, if_true]
        constructor
        · have : (f :: hs).length ≤ 20 := hlen
          simp at this ⊢
          omega
        · intro hmem
          exact hns2 (by
            simp only [List.cons_append]
            exact List.mem_cons_of_mem f hmem)
    · rw [if_neg hgt]
      constructor
      · omega
      · exact hns2

theorem applyHistoryOp_inv (hist : List (String × List String)) (op : HistoryOp)
    (hinv : ∀ p ∈ hist, p.2.length ≤ 20 ∧ "" ∉ p.2) :
    ∀ p ∈ applyHistoryOp hist op, p.2.length ≤ 20 ∧ "" ∉ p.2 := by
  cases op with
  | record g tid =>
    intro p hp
    simp only [applyHistoryOp] at hp
    by_cases hgt : (jsDefined g && jsDefined tid) = true
    · rw [if_pos hgt] at hp
      unfold LavalinkAutoplay.addToHistory at hp
      rcases mem_aset _ _ _ _ hp with hmem | heq
      · exact hinv p hmem
      · subst heq
        have htid : tid.getD "" ≠ "" := by
          have hgt2 := hgt
          simp only [Bool.and_eq_true] at hgt2
          have h2 := hgt2.2
          cases tid with
          | none => simp [jsDefined] at h2
          | some s => simpa [jsDefined, bne_iff_ne] using h2
        have h0inv : ((alookup hist (g.getD "")).getD []).length ≤ 20 ∧
            "" ∉ (alookup hist (g.getD "")).getD [] := by
          cases hl : alookup hist (g.getD "") with
          | none => simp
          | some v =>
            simpa using hinv _ (mem_pair_of_alookup_eq_some _ _ _ hl)
        exact histAdd_inv _ _ h0inv.1 h0inv.2 htid
    · rw [if_neg hgt] at hp
      exact hinv p hp
  | clearOne g =>
    intro p hp
    simp only [applyHistoryOp, LavalinkAutoplay.clearHistory] at hp
    exact hinv p (mem_adelete _ _ _ hp)
  | clearAll =>
    intro p hp
    simp [applyHistoryOp, LavalinkAutoplay.clearHistory] at hp

theorem foldl_applyHistoryOp_inv (ops : List HistoryOp) (hist : List (String × List String))
    (hinv : ∀ p ∈ hist, p.2.length ≤ 20 ∧ "" ∉ p.2) :
    ∀ p ∈ ops.foldl applyHistoryOp hist, p.2.length ≤ 20 ∧ "" ∉ p.2 := by
  induction ops generalizing hist with
  | nil => simpa using hinv
  | cons op rest ih =>
    simpa using ih _ (applyHistoryOp_inv hist op hinv)

/-- C5: starting from the empty dispatcher state, after any sequence of
history-touching dispatcher operations every consumer's exclusion history
holds at most 20 track identifiers; and when an insertion into a full
(20-entry) history would exceed the capacity, the evicted entry is exactly
the oldest (first-inserted) one. -/
theorem c5_history_capped_at_20_with_oldest_first_eviction :
    (∀ (ops : List HistoryOp) (g : String),
      ((alookup (ops.foldl applyHistoryOp []) g).getD []).length ≤ 20) ∧
    (∀ (h : List String) (x : String),
      h.length = 20 → "" ∉ h → x ∉ h →
      LavalinkAutoplay.histAdd h x = h.tail ++ [x]) := by
  constructor
  · intro ops g
    have hinv := foldl_applyHistoryOp_inv ops [] (by simp)
    cases hl : alookup (ops.foldl applyHistoryOp []) g with
    | none => simp
    | some v =>
      simpa using (hinv _ (mem_pair_of_alookup_eq_some _ _ _ hl)).1
  · intro h x hlen hns hnx
    have hc : h.contains x = false := contains_eq_false_of_not_mem hnx
    unfold LavalinkAutoplay.histAdd jsSetAdd
    rw [if_neg (fun hcc => by rw [hc] at hcc; exact Bool.false_ne_true hcc)]
    unfold LavalinkAutoplay.histEvict
    have hgt : (h ++ [x]).length > 20 := by
      simp [hlen]
    rw [if_pos hgt]
    cases h with
    | nil => simp at hlen
    | cons f hs =>
      have hf : f ≠ "" := fun he => hns (he ▸ List.mem_cons_self f hs)
      have hf2 : (f != "") = true := bne_iff_ne.mpr hf
      simp only [List.cons_append, hf2, if_true, List.tail_cons]

/-- C5 witness: one record keeps the history at a single entry (≤ 20), and
inserting into a full 20-entry history evicts exactly the oldest entry. -/
theorem c5_witness :
    ((alookup ([HistoryOp.record (some "g1") (some "a")].foldl applyHistoryOp []) "g1").getD
      []).length ≤ 20 ∧
    LavalinkAutoplay.histAdd hist20 "t21" = hist20.tail ++ ["t21"] :=
  ⟨c5_history_capped_at_20_with_oldest_first_eviction.1 [HistoryOp.record (some "g1") (some "a")] "g1",
   c5_history_capped_at_20_with_oldest_first_eviction.2 hist20 "t21"
     (by decide) (by decide) (by decide)⟩

theorem not_mem_of_contains_eq_false {x : String} {l : List String}
    (h : l.contains x = false) : x ∉ l := by
  intro hm
  have hc : l.contains x = true := by simpa [List.contains] using hm
  rw [h] at hc
  exact Bool.false_ne_true hc

theorem mem_getAutoplayTracks (resolve : String → Except String (List EuraTrack))
    (q : String) (excl : List String) (tr : EuraTrack)
    (h : tr ∈ YouTubeSearchProvider.getAutoplayTracks (some resolve) q excl) :
    (jsDefined (jsOrStr tr.identifier tr.infoIdentifier) &&
      !(excl.contains ((jsOrStr tr.identifier tr.infoIdentifier).getD ""))) = true := by
  simp only [YouTubeSearchProvider.getAutoplayTracks] at h
  split at h
  · simp at h
  · split at h
    · have h2 := List.mem_of_mem_take h
      have h3 := List.of_mem_filter h2
      exact h3
    · simp at h

theorem ytSearch_trackId_not_excluded (eura : EuraResolver) (t : LavalinkTrackInfo)
    (excl : List String) (x : String)
    (h : (YouTubeSearchProvider.getNextTrack eura t excl).1.trackId = some x) :
    x ∉ excl := by
  unfold YouTubeSearchProvider.getNextTrack at h
  split at h
  · simp [BaseProvider.handleError, BaseProvider.createErrorResult] at h
  · split at h
    · simp [BaseProvider.createErrorResult] at h
    · split at h
      · simp [BaseProvider.createErrorResult] at h
      · next sel rest heq =>
        simp only [BaseProvider.createSuccessResult] at h
        by_cases hd : jsDefined sel.identifier = true
        · rw [if_pos hd] at h
          cases eura with
          | none =>
            rw [show YouTubeSearchProvider.getAutoplayTracks none
                (YouTubeSearchProvider.createSearchQuery t) excl = [] from rfl] at heq
            exact List.noConfusion heq
          | some resolve =>
            have hmem : sel ∈ YouTubeSearchProvider.getAutoplayTracks (some resolve)
                (YouTubeSearchProvider.createSearchQuery t) excl := by
              rw [heq]
              exact List.mem_cons_self _ _
            have hpred := mem_getAutoplayTracks resolve _ excl sel hmem
            rw [h] at hpred hd
            have hcoal : jsOrStr (some x) sel.infoIdentifier = some x := by
              unfold jsOrStr
              rw [if_pos hd]
            rw [hcoal] at hpred
            simp only [Bool.and_eq_true, Bool.not_eq_true'] at hpred
            exact not_mem_of_contains_eq_false (by simpa using hpred.2)
        · rw [if_neg hd] at h
          exact Option.noConfusion h

theorem getNextTrack_result_cases (cfg : AutoplayConfig)
    (providers : AutoplaySource → ProviderModel) (st : DispatcherState)
    (now : Nat) (t : LavalinkTrackInfo) (g : Option String) :
    (∃ e s, (LavalinkAutoplay.getNextTrack cfg providers st now t g).result =
        LavalinkAutoplay.createErrorResult e s) ∨
    ((providers (LavalinkAutoplay.mapSourceName t.sourceName (some t))).step t
        (LavalinkAutoplay.excludeIdsFor st g) =
      .completed (LavalinkAutoplay.getNextTrack cfg providers st now t g).result) := by
  unfold LavalinkAutoplay.getNextTrack
  split
  · exact Or.inl ⟨_, _, rfl⟩
  · split
    · exact Or.inl ⟨_, _, rfl⟩
    · split
      · exact Or.inl ⟨_, _, rfl⟩
      · split
        · exact Or.inl ⟨_, _, rfl⟩
        · next r heq => exact Or.inr (by rw [heq])

/-- C4 counterexample: with the radio-mode YouTube draft (the exclusion-blind
fallback cited by the claim), consumer g1 successfully receives the track
dQw4w9WgXcQ, which enters its exclusion history — and the very next call
for g1 with the same seed (well past the rate-limit delay, with the history
still holding the track) succeeds and returns the SAME trackId again. -/
theorem c4_counterexample_radio_mode_repeats :
    (LavalinkAutoplay.getNextTrack cfgDefault radioRegistry {} 1000 rickTrack
        (some "g1")).result.success = true ∧
    (LavalinkAutoplay.getNextTrack cfgDefault radioRegistry {} 1000 rickTrack
        (some "g1")).result.trackId = some "dQw4w9WgXcQ" ∧
    (alookup (LavalinkAutoplay.getNextTrack cfgDefault radioRegistry {} 1000 rickTrack
        (some "g1")).state.trackHistory "g1").getD [] = ["dQw4w9WgXcQ"] ∧
    (LavalinkAutoplay.getNextTrack cfgDefault radioRegistry
        (LavalinkAutoplay.getNextTrack cfgDefault radioRegistry {} 1000 rickTrack
          (some "g1")).state 2000 rickTrack (some "g1")).result.success = true ∧
    (LavalinkAutoplay.getNextTrack cfgDefault radioRegistry
        (LavalinkAutoplay.getNextTrack cfgDefault radioRegistry {} 1000 rickTrack
          (some "g1")).state 2000 rickTrack (some "g1")).result.trackId =
      some "dQw4w9WgXcQ" := by
  decide

/-- C4 (amended): with the search-draft YouTube provider — which filters the
resolver's candidates through the exclusion set — a call for consumer g
whose track canonicalizes to youtube can never return a trackId still held
in g's exclusion history, whatever the resolver does; the radio-mode
fallback draft ignores the exclusion set and can repeat the seed track. -/
theorem c4_search_provider_never_returns_excluded_track
    (cfg : AutoplayConfig) (eura : EuraResolver)
    (spStep scStep : LavalinkTrackInfo → List String → ProviderStep)
    (st : DispatcherState) (now : Nat) (t : LavalinkTrackInfo) (g x : String)
    (hg : g ≠ "")
    (hmem : x ∈ (alookup st.trackHistory g).getD [])
    (hsrc : LavalinkAutoplay.mapSourceName t.sourceName (some t) = .youtube) :
    (LavalinkAutoplay.getNextTrack cfg (searchRegistry eura spStep scStep) st now t
        (some g)).result.trackId ≠ some x := by
  intro hid
  rcases getNextTrack_result_cases cfg (searchRegistry eura spStep scStep) st now t
      (some g) with ⟨e, s, hres⟩ | hstep
  · rw [hres] at hid
    simp [LavalinkAutoplay.createErrorResult] at hid
  · rw [hsrc] at hstep
    have hstep2 : ProviderStep.completed
        ((YouTubeSearchProvider.getNextTrack eura t
          (LavalinkAutoplay.excludeIdsFor st (some g))).1) =
        ProviderStep.completed
          (LavalinkAutoplay.getNextTrack cfg (searchRegistry eura spStep scStep) st now t
            (some g)).result := hstep
    have hres := ProviderStep.completed.inj hstep2
    rw [← hres] at hid
    have hnot := ytSearch_trackId_not_excluded eura t
      (LavalinkAutoplay.excludeIdsFor st (some g)) x hid
    apply hnot
    have hgd : jsDefined (some g) = true := bne_iff_ne.mpr hg
    unfold LavalinkAutoplay.excludeIdsFor
    rw [if_pos hgd]
    exact hmem

/-- C4 witness for the amended theorem: with the search provider and a
history holding "zzz" for g1, the returned trackId is never "zzz". -/
theorem c4_witness :
    "zzz" ∈ (alookup servedState.trackHistory "g1").getD [] ∧
    (LavalinkAutoplay.getNextTrack cfgDefault
        (searchRegistry none (fun _ _ => .timedOut) (fun _ _ => .timedOut))
        servedState 1000 rickTrack (some "g1")).result.trackId ≠ some "zzz" :=
  ⟨by decide,
   c4_search_provider_never_returns_excluded_track cfgDefault none
     (fun _ _ => .timedOut) (fun _ _ => .timedOut) servedState 1000 rickTrack "g1" "zzz"
     (by decide) (by decide) (by decide)⟩

theorem wellShapedB_success (name : AutoplaySource) (url : String)
    (trackId : Option String) (metadata : Option Metadata) :
    wellShapedB (BaseProvider.createSuccessResult name url trackId metadata) = true := by
  simp [wellShapedB, BaseProvider.createSuccessResult]

theorem wellShapedB_provider_error (name : AutoplaySource) (e : String)
    (metadata : Option Metadata) :
    wellShapedB (BaseProvider.createErrorResult name e metadata) = true := by
  simp [wellShapedB, BaseProvider.createErrorResult]

theorem wellShapedB_dispatcher_error (e s : String) :
    wellShapedB (LavalinkAutoplay.createErrorResult e s) = true := by
  simp [wellShapedB, LavalinkAutoplay.createErrorResult]

theorem ytRadio_wellShaped (t : LavalinkTrackInfo) :
    wellShapedB (YouTubeRadioProvider.getNextTrack t).1 = true := by
  unfold YouTubeRadioProvider.getNextTrack
  split
  · exact wellShapedB_provider_error _ _ _
  · split
    · exact wellShapedB_provider_error _ _ _
    · exact wellShapedB_success _ _ _ _

theorem ytSearch_wellShaped (eura : EuraResolver) (t : LavalinkTrackInfo)
    (excl : List String) :
    wellShapedB (YouTubeSearchProvider.getNextTrack eura t excl).1 = true := by
  unfold YouTubeSearchProvider.getNextTrack
  split
  · exact wellShapedB_provider_error _ _ _
  · split
    · exact wellShapedB_provider_error _ _ _
    · split
      · exact wellShapedB_provider_error _ _ _
      · exact wellShapedB_success _ _ _ _

theorem spotify_wellShaped (eura : EuraResolver) (rand : Nat → Nat) (maxResults : Nat)
    (t : LavalinkTrackInfo) (excl : List String) :
    wellShapedB (SpotifyProvider.getNextTrack eura rand maxResults t excl).1 = true := by
  unfold SpotifyProvider.getNextTrack
  split
  · exact wellShapedB_provider_error _ _ _
  · split
    · exact wellShapedB_provider_error _ _ _
    · split
      · exact wellShapedB_provider_error _ _ _
      · exact wellShapedB_success _ _ _ _

theorem soundcloud_try_ok_wellShaped (fetch : String → Except String String)
    (pick maxTracks : Nat) (baseUrl : String) (t : LavalinkTrackInfo)
    (out : AutoplayResult × List EmittedEvent)
    (h : SoundCloudProvider.tryGetNextTrack fetch pick maxTracks baseUrl t = .ok out) :
    wellShapedB out.1 = true := by
  unfold SoundCloudProvider.tryGetNextTrack at h
  split at h
  · simp at h
  · split at h
    · rw [← Except.ok.inj h]
      exact wellShapedB_provider_error _ _ _
    · split at h
      · simp at h
      · split at h
        · simp at h
        · split at h
          · rw [← Except.ok.inj h]
            exact wellShapedB_provider_error _ _ _
          · split at h
            · simp at h
            · rw [← Except.ok.inj h]
              exact wellShapedB_success _ _ _ _

theorem soundcloud_wellShaped (fetch : String → Except String String)
    (pick maxTracks : Nat) (baseUrl : String) (t : LavalinkTrackInfo) :
    wellShapedB (SoundCloudProvider.getNextTrack fetch pick maxTracks baseUrl t).1 = true := by
  unfold SoundCloudProvider.getNextTrack
  split
  · next out heq => exact soundcloud_try_ok_wellShaped _ _ _ _ _ _ heq
  · exact wellShapedB_provider_error _ _ _

theorem radioRegistry_steps_wellShaped (s : AutoplaySource) (t : LavalinkTrackInfo)
    (excl : List String) (r : AutoplayResult)
    (heq : (radioRegistry s).step t excl = .completed r) : wellShapedB r = true := by
  cases s with
  | youtube =>
    rw [show (radioRegistry .youtube).step t excl =
      .completed (YouTubeRadioProvider.getNextTrack t).1 from rfl] at heq
    rw [← ProviderStep.completed.inj heq]
    exact ytRadio_wellShaped t
  | spotify =>
    rw [show (radioRegistry .spotify).step t excl =
      .completed (SpotifyProvider.getNextTrack none (fun _ => 0) 10 t excl).1 from rfl] at heq
    rw [← ProviderStep.completed.inj heq]
    exact spotify_wellShaped none (fun _ => 0) 10 t excl
  | soundcloud =>
    rw [show (radioRegistry .soundcloud).step t excl =
      .completed (SoundCloudProvider.getNextTrack (fun _ => .error "fetch failed") 0 40
        "https://soundcloud.com" t).1 from rfl] at heq
    rw [← ProviderStep.completed.inj heq]
    exact soundcloud_wellShaped _ 0 40 _ t

/-- C6 counterexample: a SoundCloud provider success result (scraped page
with one anchor, random pick 0) has success = true with url, source and
metadata populated — but NO trackId: `createSuccessResult(selectedTrack,
undefined, {...})` passes `undefined` for the trackId, so the success shape
of the claim ("url, trackId, source and metadata are populated") is not
fully populated. -/
theorem c6_counterexample_soundcloud_success_without_trackId :
    (SoundCloudProvider.getNextTrack (fun _ => .ok scHtml) 0 40 "https://soundcloud.com"
        scTrack).1.success = true ∧
    (SoundCloudProvider.getNextTrack (fun _ => .ok scHtml) 0 40 "https://soundcloud.com"
        scTrack).1.url = some "https://soundcloud.com/artist/other-track" ∧
    (SoundCloudProvider.getNextTrack (fun _ => .ok scHtml) 0 40 "https://soundcloud.com"
        scTrack).1.source = some "soundcloud" ∧
    (SoundCloudProvider.getNextTrack (fun _ => .ok scHtml) 0 40 "https://soundcloud.com"
        scTrack).1.metadata.isSome = true ∧
    (SoundCloudProvider.getNextTrack (fun _ => .ok scHtml) 0 40 "https://soundcloud.com"
        scTrack).1.trackId = none := by
  decide

/-- C6 (amended): every result built by the result constructors, and every
result returned by the dispatcher over providers whose completed steps are
well-shaped, populates exactly one of the two shapes — on success url and
source are populated and error is absent (trackId and metadata only when
supplied, e.g. SoundCloud success results carry no trackId); on failure
error is populated and url and trackId are absent. -/
theorem c6_result_shape_invariant :
    (∀ (name : AutoplaySource) (url : String) (trackId : Option String)
        (metadata : Option Metadata),
      wellShapedB (BaseProvider.createSuccessResult name url trackId metadata) = true) ∧
    (∀ (name : AutoplaySource) (e : String) (metadata : Option Metadata),
      wellShapedB (BaseProvider.createErrorResult name e metadata) = true) ∧
    (∀ e s, wellShapedB (LavalinkAutoplay.createErrorResult e s) = true) ∧
    (∀ (cfg : AutoplayConfig) (providers : AutoplaySource → ProviderModel)
        (st : DispatcherState) (now : Nat) (t : LavalinkTrackInfo) (g : Option String),
      (∀ s t2 excl r, (providers s).step t2 excl = .completed r → wellShapedB r = true) →
      wellShapedB (LavalinkAutoplay.getNextTrack cfg providers st now t g).result = true) := by
  refine ⟨wellShapedB_success, wellShapedB_provider_error, wellShapedB_dispatcher_error, ?_⟩
  intro cfg providers st now t g hp
  rcases getNextTrack_result_cases cfg providers st now t g with ⟨e, s, hres⟩ | hstep
  · rw [hres]
    exact wellShapedB_dispatcher_error _ _
  · exact hp _ _ _ _ hstep

/-- C6 witness: the dispatcher conjunct at the concrete radio registry. -/
theorem c6_witness :
    wellShapedB (LavalinkAutoplay.getNextTrack cfgDefault radioRegistry {} 1000 rickTrack
      none).result = true :=
  c6_result_shape_invariant.2.2.2 cfgDefault radioRegistry {} 1000 rickTrack none
    radioRegistry_steps_wellShaped

/-- C7 counterexample: when the resolver collaborator throws, the Spotify
provider converts the failure into a result — but the thrown network error
is swallowed inside the candidate-fetch helper (caught and logged), so the
call surfaces as a not-found failure with a single trackNotFound event and
NO provider-error event carrying the causing error, refuting the
"with a provider-error event" part of the claim. -/
theorem c7_counterexample_spotify_swallows_network_error :
    (SpotifyProvider.getNextTrack (some (fun _ => .error "network down")) (fun _ => 0) 10
        spTrack []).1.success = false ∧
    (SpotifyProvider.getNextTrack (some (fun _ => .error "network down")) (fun _ => 0) 10
        spTrack []).1.error = some "No Spotify autoplay tracks found" ∧
    (SpotifyProvider.getNextTrack (some (fun _ => .error "network down")) (fun _ => 0) 10
        spTrack []).2 = [{ type := .trackNotFound }] := by
  decide

theorem soundcloud_canHandle_facts (t : LavalinkTrackInfo)
    (h : SoundCloudProvider.canHandle t = true) :
    t.sourceName = "soundcloud" ∧ t.uri ≠ "" := by
  unfold SoundCloudProvider.canHandle at h
  simp only [Bool.and_eq_true, beq_iff_eq, bne_iff_ne] at h
  exact h

theorem base_validate_ok (t : LavalinkTrackInfo)
    (h1 : t.sourceName ≠ "") (h2 : t.uri ≠ "") :
    BaseProvider.validateTrackInfo t = .ok () := by
  unfold BaseProvider.validateTrackInfo
  rw [if_neg h1, if_neg (fun hc => h2 hc.2)]

/-- C7 (amended): every provider operation is total and returns a
failure-or-success shaped AutoplayResult for every input and every
collaborator behaviour — including throwing collaborators — so no exception
escapes to the caller; an error that reaches a provider's top-level catch
(e.g. a SoundCloud page fetch that throws) is converted to a failure result
AND emits a providerError event carrying the causing error; but network
errors swallowed inside the YouTube/Spotify candidate-fetch helpers surface
as a not-found failure with a trackNotFound event and no providerError
event. -/
theorem c7_providers_never_throw_and_uncaught_failures_emit_provider_error :
    (∀ t, wellShapedB (YouTubeRadioProvider.getNextTrack t).1 = true) ∧
    (∀ eura t excl, wellShapedB (YouTubeSearchProvider.getNextTrack eura t excl).1 = true) ∧
    (∀ eura rand maxR t excl,
      wellShapedB (SpotifyProvider.getNextTrack eura rand maxR t excl).1 = true) ∧
    (∀ fetch pick maxT baseUrl t,
      wellShapedB (SoundCloudProvider.getNextTrack fetch pick maxT baseUrl t).1 = true) ∧
    (∀ (fetch : String → Except String String) (pick maxT : Nat) (baseUrl : String)
        (t : LavalinkTrackInfo) (msg p : String),
      (∀ u, fetch u = Except.error msg) →
      SoundCloudProvider.canHandle t = true →
      urlPathname t.uri = Except.ok p →
      SoundCloudProvider.getNextTrack fetch pick maxT baseUrl t =
        (BaseProvider.createErrorResult .soundcloud msg none,
         [{ type := .providerError, errorMsg := some msg }])) := by
  refine ⟨ytRadio_wellShaped, ytSearch_wellShaped, spotify_wellShaped,
    soundcloud_wellShaped, ?_⟩
  intro fetch pick maxT baseUrl t msg p hfetch hch hurl
  obtain ⟨hsn, huri⟩ := soundcloud_canHandle_facts t hch
  have hval : BaseProvider.validateTrackInfo t = .ok () :=
    base_validate_ok t (by rw [hsn]; decide) huri
  have htry : SoundCloudProvider.tryGetNextTrack fetch pick maxT baseUrl t = .error msg := by
    unfold SoundCloudProvider.tryGetNextTrack
    simp only [hval, if_neg (not_not_intro hch), SoundCloudProvider.createRecommendedUrl,
      hurl, SoundCloudProvider.fetchRecommendedTracks, hfetch]
  unfold SoundCloudProvider.getNextTrack
  rw [htry]
  rfl

/-- C7 witness: a concrete throwing fetch on a valid SoundCloud track. -/
theorem c7_witness :
    SoundCloudProvider.canHandle scTrack = true ∧
    SoundCloudProvider.getNextTrack (fun _ => Except.error "boom") 0 40
        "https://soundcloud.com" scTrack =
      (BaseProvider.createErrorResult .soundcloud "boom" none,
       [{ type := .providerError, errorMsg := some "boom" }]) :=
  ⟨by decide,
   c7_providers_never_throw_and_uncaught_failures_emit_provider_error.2.2.2.2
     (fun _ => Except.error "boom") 0 40 "https://soundcloud.com" scTrack
     "boom" "/artist/track-1" (fun _ => rfl) (by decide) (by rfl)⟩

theorem foldl_applyMutation_lookup (muts : List MapMutation) (hp : RLHeap) (a k : Nat)
    (hne : k ≠ a) :
    alookup (muts.foldl (fun hq m => applyMutation hq a m) hp) k = alookup hp k := by
  induction muts generalizing hp with
  | nil => rfl
  | cons m rest ih =>
    rw [List.foldl_cons, ih]
    cases m with
    | set kk v =>
      show alookup (aset hp a _) k = alookup hp k
      rw [alookup_aset, if_neg (fun hh => hne hh.symm)]
    | del kk =>
      show alookup (aset hp a _) k = alookup hp k
      rw [alookup_aset, if_neg (fun hh => hne hh.symm)]
    | clear =>
      show alookup (aset hp a _) k = alookup hp k
      rw [alookup_aset, if_neg (fun hh => hne hh.symm)]

theorem getRateLimitStatus_lookup (hp : RLHeap) (d : HeapDispatcher) :
    alookup (LavalinkAutoplay.getRateLimitStatus hp d).1
      (LavalinkAutoplay.getRateLimitStatus hp d).2 =
      some (mapCopy ((alookup hp d.rlAddr).getD [])) := by
  show alookup (hp ++ [(freshAddr hp, mapCopy ((alookup hp d.rlAddr).getD []))])
      (freshAddr hp) = _
  rw [alookup_append, alookup_freshAddr hp]
  simp [alookup]

/-- C10: `getRateLimitStatus` returns a fresh copy of the ledger — after any
sequence of caller mutations (set, delete, clear) applied to the returned
Map, the dispatcher's internal ledger object is unchanged, every
rate-limit decision computed from it is unchanged, and a later
`getRateLimitStatus` still hands out a copy of the original entries. -/
theorem c10_rate_limit_status_returns_fresh_copy
    (h : RLHeap) (d : HeapDispatcher) (muts : List MapMutation)
    (hdom : (alookup h d.rlAddr).isSome = true) :
    alookup (muts.foldl
        (fun hp m => applyMutation hp (LavalinkAutoplay.getRateLimitStatus h d).2 m)
        (LavalinkAutoplay.getRateLimitStatus h d).1) d.rlAddr = alookup h d.rlAddr ∧
    (∀ delay now s, heapIsRateLimited
        (muts.foldl
          (fun hp m => applyMutation hp (LavalinkAutoplay.getRateLimitStatus h d).2 m)
          (LavalinkAutoplay.getRateLimitStatus h d).1) d delay now s =
      heapIsRateLimited h d delay now s) ∧
    alookup (LavalinkAutoplay.getRateLimitStatus
        (muts.foldl
          (fun hp m => applyMutation hp (LavalinkAutoplay.getRateLimitStatus h d).2 m)
          (LavalinkAutoplay.getRateLimitStatus h d).1) d).1
      (LavalinkAutoplay.getRateLimitStatus
        (muts.foldl
          (fun hp m => applyMutation hp (LavalinkAutoplay.getRateLimitStatus h d).2 m)
          (LavalinkAutoplay.getRateLimitStatus h d).1) d).2 =
      some (mapCopy ((alookup h d.rlAddr).getD [])) := by
  have hne : d.rlAddr ≠ freshAddr h := by
    intro he
    rw [he, alookup_freshAddr] at hdom
    simp at hdom
  have hfirst : alookup (muts.foldl
      (fun hp m => applyMutation hp (LavalinkAutoplay.getRateLimitStatus h d).2 m)
      (LavalinkAutoplay.getRateLimitStatus h d).1) d.rlAddr = alookup h d.rlAddr := by
    show alookup (muts.foldl (fun hp m => applyMutation hp (freshAddr h) m)
        (h ++ [(freshAddr h, mapCopy ((alookup h d.rlAddr).getD []))])) d.rlAddr =
      alookup h d.rlAddr
    rw [foldl_applyMutation_lookup muts _ _ _ hne]
    rw [alookup_append]
    cases hx : alookup h d.rlAddr with
    | some v => rfl
    | none =>
      rw [hx] at hdom
      simp at hdom
  refine ⟨hfirst, ?_, ?_⟩
  · intro delay now s
    unfold heapIsRateLimited
    rw [hfirst]
  · rw [getRateLimitStatus_lookup, hfirst]

/-- C10 witness: a concrete heap, one set, one delete and one clear applied
to the returned copy leave the internal ledger entry intact. -/
theorem c10_witness :
    (alookup [((0 : Nat), [("youtube", (100 : Nat))])] (0 : Nat)).isSome = true ∧
    alookup ([MapMutation.set "youtube" 999, MapMutation.del "youtube", MapMutation.clear].foldl
        (fun hp m => applyMutation hp
          (LavalinkAutoplay.getRateLimitStatus [((0 : Nat), [("youtube", (100 : Nat))])] ⟨0⟩).2 m)
        (LavalinkAutoplay.getRateLimitStatus [((0 : Nat), [("youtube", (100 : Nat))])] ⟨0⟩).1)
      (0 : Nat) = alookup [((0 : Nat), [("youtube", (100 : Nat))])] (0 : Nat) :=
  ⟨by decide,
   (c10_rate_limit_status_returns_fresh_copy [((0 : Nat), [("youtube", (100 : Nat))])] ⟨0⟩
     [MapMutation.set "youtube" 999, MapMutation.del "youtube", MapMutation.clear]
     (by decide)).1⟩
